import Mathlib

/-!
Verification of the payment-link lifecycle implemented in `app.py` / `db.py`.

The store is the SQLite table `payments` (one row per link), embedded as a
list of records in insertion order.  The status column is TEXT in SQLite, but
the application only ever writes the three literals "pending", "processing"
and "paid", so it is embedded as an inductive type.  Timestamps (`expires_at`,
`datetime.now()`) are embedded as integers.  External collaborators (the Flask
framework, the Adyen session API, the HMAC primitive, `uuid.uuid4`) appear as
explicit parameters of the route functions.
-/

namespace PaymentLink

/-- The three status values the application writes
(`db.py` writes "pending" at creation; `app.py` writes "processing",
"pending" and "paid"). -/
inductive Status
  | pending
  | processing
  | paid
deriving DecidableEq, Repr

/-- One row of the `payments` table (`db.py`, `init_db`):
id TEXT PRIMARY KEY, amount INTEGER, currency TEXT, reference TEXT UNIQUE,
status TEXT, country TEXT, expires_at DATETIME. -/
structure PaymentRecord where
  id : String
  amount : Int
  currency : String
  reference : String
  status : Status
  country : String
  expiresAt : Int
deriving DecidableEq, Repr

/-- The `payments` table, rows in insertion order. -/
abbrev Store := List PaymentRecord

/-- `db.get_payment_by_id`: `SELECT ... WHERE id = ?` with `fetchone()`:
the first row whose id matches, if any. -/
def get_payment_by_id (store : Store) (payment_id : String) : Option PaymentRecord :=
  store.find? (fun r => r.id == payment_id)

/-- `db.create_payment_record`: `INSERT INTO payments ... VALUES (..., 'pending', ...)`.
SQLite raises `IntegrityError` (embedded as `none`) when the PRIMARY KEY on
`id` or the UNIQUE constraint on `reference` is violated. -/
def create_payment_record (store : Store) (payment_id : String) (amount_minor : Int)
    (currency reference country : String) (expires_at : Int) : Option Store :=
  if store.any (fun r => r.id == payment_id || r.reference == reference) then
    none
  else
    some (store ++ [⟨payment_id, amount_minor, currency, reference, Status.pending,
      country, expires_at⟩])

/-- `db.update_status_by_id`: `UPDATE payments SET status = ? WHERE id = ?`
(updates every matching row; at most one matches under the PRIMARY KEY). -/
def update_status_by_id (store : Store) (payment_id : String) (new_status : Status) : Store :=
  store.map (fun r => if r.id == payment_id then { r with status := new_status } else r)

/-- `db.update_status_by_reference`: `UPDATE payments SET status = ? WHERE reference = ?`. -/
def update_status_by_reference (store : Store) (reference : String) (new_status : Status) : Store :=
  store.map (fun r => if r.reference == reference then { r with status := new_status } else r)

/-- Python truthiness test `if not payment_id` on `request.args.get(...)` /
`data.get(...)`: true when the value is absent (None) or the empty string. -/
def py_falsy (s : Option String) : Bool :=
  s.getD "" == ""

/-- Python `str.split(sep)` on a list of characters (the `data` of the string). -/
def py_split (sep : Char) : List Char → List (List Char)
  | [] => [[]]
  | c :: cs =>
    let rest := py_split sep cs
    if c = sep then [] :: rest
    else (c :: rest.headD []) :: rest.tail

/-- Python `sep in s`. -/
def py_in (c : Char) (s : String) : Bool :=
  s.data.contains c

/-- `app.py` line 180: `session_reference = f"{reference}_{str(uuid.uuid4())[:8]}"`,
the per-attempt reference sent to the provider (`suffix` stands for the first
eight characters of the freshly minted uuid4). -/
def session_reference (reference suffix : String) : String :=
  reference ++ "_" ++ suffix

/-- `app.py` line 328:
`original_reference = session_reference.split("_")[0] if "_" in session_reference else session_reference`.
(`split` never returns an empty list, so `[0]` is its head.) -/
def recover_reference (sref : String) : String :=
  if py_in '_' sref then String.mk ((py_split '_' sref.data).headD []) else sref

/-- The rendered templates, by content (`message.html` is rendered with the
quoted message text; `checkout.html` with the provider session). -/
inductive Msg
  | invalidPaymentId      -- "Invalid payment ID"
  | paymentNotFound       -- "Payment not found"
  | linkExpired           -- "This payment link has expired"
  | alreadyPaid           -- "This payment link has already been paid"
  | paymentInProgress     -- "Payment in progress. This page will update ..."
  | errorCreatingSession  -- "Error creating session: ..."
  | confirmingPayment     -- "Thanks! We are confirming your payment. ..."
  | paymentIdRequired     -- {"error": "paymentId required"}
  | notFound              -- {"error": "not found"}
deriving DecidableEq, Repr

/-- Outcome of the external Adyen call
`adyen.checkout.payments_api.sessions(request_data)`: either the response
fields `id` / `sessionData`, or a raised exception. -/
inductive SessionResult
  | success (session_id session_data : String)
  | failure (err : String)
deriving DecidableEq, Repr

/-- What `GET /checkout` renders. -/
inductive CheckoutView
  | messagePage (m : Msg)
  | checkoutPage (session_id session_data : String)
deriving DecidableEq, Repr

/-- Observable outcome of a `GET /checkout` request: the table afterwards, the
HTTP status, the rendered page, whether the Adyen sessions call was made (and
with which derived reference), and whether `schedule_processing_unlock` ran. -/
structure CheckoutOutcome where
  store : Store
  http : Nat
  view : CheckoutView
  sessionCalled : Bool
  sessionRef : Option String
  timerArmed : Bool
deriving DecidableEq, Repr

/-- `app.checkout_page` (`GET /checkout`).  `paymentId` is the query argument,
`now` the value of `datetime.now()`, `attempt_suffix` the first eight
characters of the uuid minted at line 180, `session_api` the outcome of the
Adyen sessions call (only consulted on the path that makes the call).
The handler never writes to the database: the lock happens only at `/result`
(comment at lines 148 and 210). -/
def checkout_page (store : Store) (paymentId : Option String) (now : Int)
    (attempt_suffix : String) (session_api : SessionResult) : CheckoutOutcome :=
  if py_falsy paymentId then
    ⟨store, 400, .messagePage .invalidPaymentId, false, none, false⟩
  else
    match get_payment_by_id store (paymentId.getD "") with
    | none => ⟨store, 404, .messagePage .paymentNotFound, false, none, false⟩
    | some payment =>
      if now > payment.expiresAt then
        ⟨store, 403, .messagePage .linkExpired, false, none, false⟩
      else if payment.status = Status.paid then
        ⟨store, 403, .messagePage .alreadyPaid, false, none, false⟩
      else if payment.status = Status.processing then
        ⟨store, 200, .messagePage .paymentInProgress, false, none, false⟩
      else
        -- status == 'pending' -> create Adyen session
        match session_api with
        | .success session_id session_data =>
          ⟨store, 200, .checkoutPage session_id session_data, true,
            some (session_reference payment.reference attempt_suffix), false⟩
        | .failure _ =>
          ⟨store, 500, .messagePage .errorCreatingSession, true,
            some (session_reference payment.reference attempt_suffix), false⟩

/-- Observable outcome of `GET /result` and of the timer callback scheduling. -/
structure ResultOutcome where
  store : Store
  http : Nat
  message : Msg
  timerArmed : Bool
deriving DecidableEq, Repr

/-- `app.result_page` (`GET /result`): locks the link (status=processing) only
on return, and only from 'pending'; always renders the confirmation message. -/
def result_page (store : Store) (paymentId : Option String) : ResultOutcome :=
  if py_falsy paymentId then
    ⟨store, 400, .invalidPaymentId, false⟩
  else
    match get_payment_by_id store (paymentId.getD "") with
    | none => ⟨store, 404, .paymentNotFound, false⟩
    | some payment =>
      if payment.status = Status.pending then
        ⟨update_status_by_id store (paymentId.getD "") Status.processing, 200,
          .confirmingPayment, true⟩
      else
        ⟨store, 200, .confirmingPayment, false⟩

/-- JSON body returned by `POST /mark-processing`. -/
inductive MarkBody
  | statusResp (st : Status)   -- {"status": st}
  | errorResp (m : Msg)        -- {"error": ...}
deriving DecidableEq, Repr

/-- Observable outcome of `POST /mark-processing`. -/
structure MarkOutcome where
  store : Store
  http : Nat
  body : MarkBody
  timerArmed : Bool
deriving DecidableEq, Repr

/-- `app.mark_processing` (`POST /mark-processing`).  `paymentId` is
`data.get("paymentId")` from the JSON body. -/
def mark_processing (store : Store) (paymentId : Option String) : MarkOutcome :=
  if py_falsy paymentId then
    ⟨store, 400, .errorResp .paymentIdRequired, false⟩
  else
    match get_payment_by_id store (paymentId.getD "") with
    | none => ⟨store, 404, .errorResp .notFound, false⟩
    | some row =>
      if row.status = Status.pending then
        ⟨update_status_by_id store (paymentId.getD "") Status.processing, 200,
          .statusResp Status.processing, true⟩
      else
        -- leave as-is (processing/paid/etc.)
        ⟨store, 200, .statusResp row.status, false⟩

/-- The `_unlock` callback inside `app.schedule_processing_unlock`, run when
the auto-unlock timer fires: flip status back to 'pending' if (and only if)
it is still 'processing'. -/
def unlock_timer_fire (store : Store) (payment_id : String) : Store :=
  match get_payment_by_id store payment_id with
  | none => store
  | some row =>
    if row.status = Status.processing then
      update_status_by_id store payment_id Status.pending
    else
      store

/-- One `NotificationRequestItem` of the webhook payload, after JSON parsing:
`eventCode = item.get("eventCode")`; `success` is the value of
`str(item.get("success")).lower() == "true"`; `merchantReference` is
`item.get("merchantReference", "") or ""`. -/
structure NotificationItem where
  eventCode : Option String
  success : Bool
  merchantReference : String
deriving DecidableEq, Repr

/-- Body returned by `POST /webhook`. -/
inductive WebhookBody
  | invalidHmac       -- {"error": "Invalid HMAC signature"}
  | accepted          -- "[accepted]"
  | processingError   -- {"error": ...}
deriving DecidableEq, Repr

/-- Observable outcome of `POST /webhook`. -/
structure WebhookOutcome where
  store : Store
  http : Nat
  body : WebhookBody
deriving DecidableEq, Repr

/-- Body of the webhook's `for notification in data.get("notificationItems", [])`
loop: on AUTHORISATION, set the row keyed by the recovered reference to 'paid'
on success and to 'pending' on failure; other event codes are ignored. -/
def process_notification (store : Store) (item : NotificationItem) : Store :=
  if item.eventCode = some "AUTHORISATION" then
    if item.success then
      update_status_by_reference store (recover_reference item.merchantReference) Status.paid
    else
      update_status_by_reference store (recover_reference item.merchantReference) Status.pending
  else
    store

/-- The `try` block of `app.webhook` after the HMAC gate: JSON parsing
(`none` = `json.loads` raised, caught and turned into a 500) followed by the
notification loop and the 2xx acknowledgement. -/
def webhook_process (store : Store) (payload : Option (List NotificationItem)) :
    WebhookOutcome :=
  match payload with
  | none => ⟨store, 500, .processingError⟩
  | some items => ⟨items.foldl process_notification store, 200, .accepted⟩

/-- `app.webhook` (`POST /webhook`).  `skip_hmac` is `SKIP_HMAC_VALIDATION`;
`signature` is the `Hmac-Signature` header when present; `computed` is the
value `base64.b64encode(hmac.new(key_bytes, payload, hashlib.sha256).digest())`
computed over the raw body (an external primitive, passed in; being the base64
of a 32-byte digest it is never the empty string).  A failed
`hmac.compare_digest(computed, signature)` rejects with 401 before the payload
is parsed. -/
def webhook (store : Store) (skip_hmac : Bool) (signature : Option String)
    (computed : String) (payload : Option (List NotificationItem)) : WebhookOutcome :=
  if skip_hmac then
    webhook_process store payload
  else
    if computed = signature.getD "" then
      webhook_process store payload
    else
      ⟨store, 401, .invalidHmac⟩

/-- Response of `POST /admin`. -/
inductive AdminResponse
  | linkGenerated (url : String)  -- {"message": ..., "url": checkout_url}
  | duplicateReference            -- {"error": "Reference must be unique"}
deriving DecidableEq, Repr

/-- Observable outcome of `POST /admin`. -/
structure AdminOutcome where
  store : Store
  resp : AdminResponse
  http : Nat
deriving DecidableEq, Repr

/-- The POST branch of `app.admin_form` after form parsing: `payment_id` is the
freshly minted uuid4, `expires_at` the computed `now + timedelta(hours=...)`.
`sqlite3.IntegrityError` from `create_payment_record` becomes the 400
duplicate-reference response; on success the checkout URL is returned. -/
def admin_form_post (store : Store) (payment_id : String) (price_minor : Int)
    (currency reference country : String) (expires_at : Int) (base_url : String) :
    AdminOutcome :=
  match create_payment_record store payment_id price_minor currency reference country
      expires_at with
  | none => ⟨store, .duplicateReference, 400⟩
  | some s => ⟨s, .linkGenerated (base_url ++ "/checkout?paymentId=" ++ payment_id), 200⟩

/-! ### Helper lemmas -/

/-- Overwriting the status with the value it already has does not change a row. -/
theorem set_status_eq_self (r : PaymentRecord) (st : Status) (h : r.status = st) :
    { r with status := st } = r := by
  cases r
  cases h
  rfl

/-- Looking up an id after `update_status_by_id` of that same id returns the
original row with its status overwritten. -/
theorem get_after_update_by_id (store : Store) (payment_id : String) (st : Status) :
    get_payment_by_id (update_status_by_id store payment_id st) payment_id =
      (get_payment_by_id store payment_id).map (fun r => { r with status := st }) := by
  unfold get_payment_by_id update_status_by_id
  rw [List.find?_map]
  have hid : ∀ r : PaymentRecord,
      (if r.id == payment_id then { r with status := st } else r).id = r.id := by
    intro r
    by_cases h : r.id = payment_id <;> simp [h]
  have hpf : ((fun r => r.id == payment_id) ∘
      (fun r => if r.id == payment_id then { r with status := st } else r)) =
      (fun r : PaymentRecord => r.id == payment_id) := by
    funext r
    simp only [Function.comp_apply]
    rw [hid r]
  rw [hpf]
  cases hfind : store.find? (fun r => r.id == payment_id) with
  | none => rfl
  | some r =>
    have hc := List.find?_some hfind
    simp [Option.map, hc]

/-- Looking up an id after `update_status_by_reference`: the found row is the
original one, status overwritten exactly when its reference matches. -/
theorem get_after_update_by_reference (store : Store) (payment_id ref : String) (st : Status) :
    get_payment_by_id (update_status_by_reference store ref st) payment_id =
      (get_payment_by_id store payment_id).map
        (fun r => if r.reference == ref then { r with status := st } else r) := by
  unfold get_payment_by_id update_status_by_reference
  rw [List.find?_map]
  have hid : ∀ r : PaymentRecord,
      (if r.reference == ref then { r with status := st } else r).id = r.id := by
    intro r
    by_cases h : r.reference = ref <;> simp [h]
  have hpf : ((fun r => r.id == payment_id) ∘
      (fun r => if r.reference == ref then { r with status := st } else r)) =
      (fun r : PaymentRecord => r.id == payment_id) := by
    funext r
    simp only [Function.comp_apply]
    rw [hid r]
  rw [hpf]

/-- Head of a Python split at the first occurrence of the separator: splitting
`r ++ sep :: s` where `r` is separator-free starts with `r` itself. -/
theorem py_split_append_head (sep : Char) (r s : List Char) (h : sep ∉ r) :
    (py_split sep (r ++ sep :: s)).headD [] = r := by
  induction r with
  | nil => simp [py_split]
  | cons c cs ih =>
    have hc : ¬ c = sep := fun hcs => h (hcs ▸ List.mem_cons_self c cs)
    have hcs : sep ∉ cs := fun hm => h (List.mem_cons_of_mem c hm)
    simp only [List.cons_append, py_split, if_neg hc, List.headD_cons]
    exact congrArg (c :: ·) (ih hcs)

/-- Round trip of the derived attempt reference, for a business reference that
contains no underscore: the webhook recovery step of `app.py` line 328 undoes
the minting step of line 180. -/
theorem recover_session_reference (r s : String) (h : py_in '_' r = false) :
    recover_reference (session_reference r s) = r := by
  have hdata : (session_reference r s).data = r.data ++ '_' :: s.data := by
    unfold session_reference
    simp [String.data_append]
  have hnot : '_' ∉ r.data := by
    unfold py_in at h
    simpa using h
  have hin : py_in '_' (session_reference r s) = true := by
    unfold py_in
    rw [hdata]
    simp
  unfold recover_reference
  rw [if_pos hin, hdata, py_split_append_head '_' r.data s.data hnot]

/-- `GET /checkout` never writes to the database (the lock happens only at
`/result`, per the comment at `app.py` line 148). -/
theorem checkout_page_store_eq (store : Store) (paymentId : Option String) (now : Int)
    (suffix : String) (sess : SessionResult) :
    (checkout_page store paymentId now suffix sess).store = store := by
  unfold checkout_page
  repeat' split
  all_goals rfl

/-- `GET /checkout` never calls `schedule_processing_unlock`. -/
theorem checkout_page_timer_eq (store : Store) (paymentId : Option String) (now : Int)
    (suffix : String) (sess : SessionResult) :
    (checkout_page store paymentId now suffix sess).timerArmed = false := by
  unfold checkout_page
  repeat' split
  all_goals rfl

/-! ### Claims -/

/-- C4: for every store already containing a link with reference `reference`,
a second create with that reference fails with HTTP 400 reporting the
collision, no new link is created (the table is unchanged), and if the first
link was pending it is unchanged and still pending. -/
theorem C4_duplicate_reference_rejected (store : Store) (payment_id : String)
    (price_minor : Int) (currency reference country : String) (expires_at : Int)
    (base_url : String) (r0 : PaymentRecord) (hmem : r0 ∈ store)
    (href : r0.reference = reference) :
    admin_form_post store payment_id price_minor currency reference country expires_at base_url
      = ⟨store, AdminResponse.duplicateReference, 400⟩ ∧
    (r0.status = Status.pending →
      r0 ∈ (admin_form_post store payment_id price_minor currency reference country
        expires_at base_url).store ∧ r0.status = Status.pending) := by
  have hdup : store.any (fun r => r.id == payment_id || r.reference == reference) = true :=
    List.any_eq_true.mpr ⟨r0, hmem, by simp [href]⟩
  have hpost : admin_form_post store payment_id price_minor currency reference country
      expires_at base_url = ⟨store, AdminResponse.duplicateReference, 400⟩ := by
    unfold admin_form_post create_payment_record
    rw [if_pos hdup]
  exact ⟨hpost, fun h => ⟨by rw [hpost]; exact hmem, h⟩⟩

/-- C6: when the auto-unlock timer fires for a link id, a link that exists
with status 'processing' is set back to 'pending'; a link with any other
status, and an absent id, leave the store unchanged. -/
theorem C6_auto_unlock_fire (store : Store) (payment_id : String) :
    (∀ r, get_payment_by_id store payment_id = some r → r.status = Status.processing →
      unlock_timer_fire store payment_id = update_status_by_id store payment_id Status.pending ∧
      get_payment_by_id (unlock_timer_fire store payment_id) payment_id =
        some { r with status := Status.pending }) ∧
    (∀ r, get_payment_by_id store payment_id = some r → r.status ≠ Status.processing →
      unlock_timer_fire store payment_id = store) ∧
    (get_payment_by_id store payment_id = none → unlock_timer_fire store payment_id = store) := by
  refine ⟨?_, ?_, ?_⟩
  · intro r hget hproc
    have hfire : unlock_timer_fire store payment_id =
        update_status_by_id store payment_id Status.pending := by
      unfold unlock_timer_fire
      rw [hget]
      simp [hproc]
    refine ⟨hfire, ?_⟩
    rw [hfire, get_after_update_by_id, hget]
    rfl
  · intro r hget hne
    unfold unlock_timer_fire
    rw [hget]
    simp [hne]
  · intro hget
    unfold unlock_timer_fire
    rw [hget]

/-- C8: a provider session-creation failure during a checkout visit yields the
error page (HTTP 500) and leaves the stored record exactly as before the
visit; indeed `/checkout` performs no database write on any path. -/
theorem C8_checkout_failure_atomic (store : Store) (payment_id : String) (now : Int)
    (suffix err : String) (r : PaymentRecord) (hpid : payment_id ≠ "")
    (hget : get_payment_by_id store payment_id = some r)
    (hp : r.status = Status.pending) (hexp : ¬ now > r.expiresAt) :
    checkout_page store (some payment_id) now suffix (SessionResult.failure err) =
      ⟨store, 500, CheckoutView.messagePage Msg.errorCreatingSession, true,
        some (session_reference r.reference suffix), false⟩ ∧
    (∀ paymentId sess, (checkout_page store paymentId now suffix sess).store = store) := by
  have hfalsy : py_falsy (some payment_id) = false := by
    simp [py_falsy, hpid]
  have hnp : r.status ≠ Status.paid := by
    rw [hp]; intro h; exact Status.noConfusion h
  have hnpr : r.status ≠ Status.processing := by
    rw [hp]; intro h; exact Status.noConfusion h
  constructor
  · unfold checkout_page
    rw [if_neg (by simp [hfalsy])]
    simp only [Option.getD_some, hget]
    rw [if_neg hexp, if_neg hnp, if_neg hnpr]
  · intro paymentId sess
    exact checkout_page_store_eq store paymentId now suffix sess

/-- C7: redirect return (`GET /result`) for an existing link: a pending link
is set to processing and the auto-unlock timer is armed; a processing or paid
link is left entirely unchanged and only the waiting message is shown. -/
theorem C7_result_page_lock_and_frame (store : Store) (payment_id : String)
    (r : PaymentRecord) (hpid : payment_id ≠ "")
    (hget : get_payment_by_id store payment_id = some r) :
    (r.status = Status.pending →
      result_page store (some payment_id) =
        ⟨update_status_by_id store payment_id Status.processing, 200,
          Msg.confirmingPayment, true⟩ ∧
      get_payment_by_id (result_page store (some payment_id)).store payment_id =
        some { r with status := Status.processing }) ∧
    (r.status = Status.processing ∨ r.status = Status.paid →
      result_page store (some payment_id) = ⟨store, 200, Msg.confirmingPayment, false⟩) := by
  have hfalsy : py_falsy (some payment_id) = false := by
    simp [py_falsy, hpid]
  constructor
  · intro hp
    have hres : result_page store (some payment_id) =
        ⟨update_status_by_id store payment_id Status.processing, 200,
          Msg.confirmingPayment, true⟩ := by
      unfold result_page
      rw [if_neg (by simp [hfalsy])]
      simp only [Option.getD_some, hget]
      rw [if_pos hp]
    refine ⟨hres, ?_⟩
    rw [hres]
    show get_payment_by_id (update_status_by_id store payment_id Status.processing) payment_id
      = some { r with status := Status.processing }
    rw [get_after_update_by_id, hget]
    rfl
  · intro hp
    have hne : r.status ≠ Status.pending := by
      rcases hp with h | h <;> rw [h] <;> intro hc <;> exact Status.noConfusion hc
    unfold result_page
    rw [if_neg (by simp [hfalsy])]
    simp only [Option.getD_some, hget]
    rw [if_neg hne]

/-- C9: with HMAC validation enabled, a webhook request whose signature header
is missing or does not equal the computed base64 HMAC-SHA256 of the raw body
is rejected with HTTP 401 and the store is unchanged; no notification of the
payload is processed.  (The computed value, being the base64 rendering of a
32-byte digest, is never the empty string, which is what the hypothesis on
`computed` records.) -/
theorem C9_webhook_hmac_reject (store : Store) (signature : Option String)
    (computed : String) (payload : Option (List NotificationItem))
    (hc : computed ≠ "")
    (hsig : signature = none ∨ ∃ s, signature = some s ∧ s ≠ computed) :
    webhook store false signature computed payload = ⟨store, 401, WebhookBody.invalidHmac⟩ := by
  have hne : ¬ computed = signature.getD "" := by
    rcases hsig with h | ⟨s, hs, hsne⟩
    · rw [h]
      simpa using hc
    · rw [hs]
      simpa using fun hh => hsne hh.symm
  unfold webhook
  simp [hne]

/-- C10: the undocumented `POST /mark-processing` route: missing paymentId
gives 400, an unknown id gives 404 (store unchanged in both); an existing
pending link is set to processing with the timer armed, returning status
processing; any other current status leaves the store unchanged and is echoed
back with HTTP 200. -/
theorem C10_mark_processing_route (store : Store) :
    (mark_processing store none = ⟨store, 400, MarkBody.errorResp Msg.paymentIdRequired, false⟩) ∧
    (∀ payment_id, payment_id ≠ "" → get_payment_by_id store payment_id = none →
      mark_processing store (some payment_id) =
        ⟨store, 404, MarkBody.errorResp Msg.notFound, false⟩) ∧
    (∀ payment_id r, payment_id ≠ "" → get_payment_by_id store payment_id = some r →
      r.status = Status.pending →
      mark_processing store (some payment_id) =
        ⟨update_status_by_id store payment_id Status.processing, 200,
          MarkBody.statusResp Status.processing, true⟩ ∧
      get_payment_by_id (mark_processing store (some payment_id)).store payment_id =
        some { r with status := Status.processing }) ∧
    (∀ payment_id r, payment_id ≠ "" → get_payment_by_id store payment_id = some r →
      r.status ≠ Status.pending →
      mark_processing store (some payment_id) =
        ⟨store, 200, MarkBody.statusResp r.status, false⟩) := by
  refine ⟨?_, ?_, ?_, ?_⟩
  · unfold mark_processing
    rw [if_pos (by simp [py_falsy])]
  · intro payment_id hpid hget
    unfold mark_processing
    rw [if_neg (by simp [py_falsy, hpid])]
    simp only [Option.getD_some, hget]
  · intro payment_id r hpid hget hp
    have hres : mark_processing store (some payment_id) =
        ⟨update_status_by_id store payment_id Status.processing, 200,
          MarkBody.statusResp Status.processing, true⟩ := by
      unfold mark_processing
      rw [if_neg (by simp [py_falsy, hpid])]
      simp only [Option.getD_some, hget]
      rw [if_pos hp]
    refine ⟨hres, ?_⟩
    rw [hres]
    show get_payment_by_id (update_status_by_id store payment_id Status.processing) payment_id
      = some { r with status := Status.processing }
    rw [get_after_update_by_id, hget]
    rfl
  · intro payment_id r hpid hget hne
    unfold mark_processing
    rw [if_neg (by simp [py_falsy, hpid])]
    simp only [Option.getD_some, hget]
    rw [if_neg hne]

/-- C5: a checkout visit creates a provider payment session exactly when the
link exists, its status is pending, and the current time is not past
expiresAt; for a processing, paid, or expired link the visit renders a
message page and makes no session-creation call. -/
theorem C5_checkout_session_gating (store : Store) (payment_id : String) (now : Int)
    (suffix : String) (sess : SessionResult) (hpid : payment_id ≠ "") :
    ((checkout_page store (some payment_id) now suffix sess).sessionCalled = true ↔
      (∃ r, get_payment_by_id store payment_id = some r ∧ r.status = Status.pending ∧
        ¬ now > r.expiresAt)) ∧
    (∀ r, get_payment_by_id store payment_id = some r →
      r.status = Status.processing ∨ r.status = Status.paid ∨ now > r.expiresAt →
      (checkout_page store (some payment_id) now suffix sess).sessionCalled = false ∧
      ∃ m, (checkout_page store (some payment_id) now suffix sess).view =
        CheckoutView.messagePage m) := by
  have hfalsy : ¬ py_falsy (some payment_id) = true := by
    simp [py_falsy, hpid]
  cases hget : get_payment_by_id store payment_id with
  | none =>
    have hout : checkout_page store (some payment_id) now suffix sess =
        ⟨store, 404, .messagePage .paymentNotFound, false, none, false⟩ := by
      unfold checkout_page
      rw [if_neg hfalsy]
      simp only [Option.getD_some, hget]
    refine ⟨?_, ?_⟩
    · rw [hout]
      constructor
      · intro h
        simp at h
      · rintro ⟨r, hr, -, -⟩
        exact Option.noConfusion hr
    · intro r hr
      exact Option.noConfusion hr
  | some payment =>
    by_cases hexp : now > payment.expiresAt
    · have hout : checkout_page store (some payment_id) now suffix sess =
          ⟨store, 403, .messagePage .linkExpired, false, none, false⟩ := by
        unfold checkout_page
        rw [if_neg hfalsy]
        simp only [Option.getD_some, hget]
        rw [if_pos hexp]
      refine ⟨?_, ?_⟩
      · rw [hout]
        constructor
        · intro h
          simp at h
        · rintro ⟨r, hr, -, hre⟩
          injection hr with hr
          subst hr
          exact absurd hexp hre
      · intro r hr hcond
        rw [hout]
        exact ⟨rfl, ⟨Msg.linkExpired, rfl⟩⟩
    · cases hst : payment.status with
      | paid =>
        have hout : checkout_page store (some payment_id) now suffix sess =
            ⟨store, 403, .messagePage .alreadyPaid, false, none, false⟩ := by
          unfold checkout_page
          rw [if_neg hfalsy]
          simp only [Option.getD_some, hget]
          rw [if_neg hexp, if_pos hst]
        refine ⟨?_, ?_⟩
        · rw [hout]
          constructor
          · intro h
            simp at h
          · rintro ⟨r, hr, hrp, -⟩
            injection hr with hr
            subst hr
            rw [hst] at hrp
            exact Status.noConfusion hrp
        · intro r hr hcond
          rw [hout]
          exact ⟨rfl, ⟨Msg.alreadyPaid, rfl⟩⟩
      | processing =>
        have hnp : ¬ payment.status = Status.paid := by
          rw [hst]
          intro h
          exact Status.noConfusion h
        have hout : checkout_page store (some payment_id) now suffix sess =
            ⟨store, 200, .messagePage .paymentInProgress, false, none, false⟩ := by
          unfold checkout_page
          rw [if_neg hfalsy]
          simp only [Option.getD_some, hget]
          rw [if_neg hexp, if_neg hnp, if_pos hst]
        refine ⟨?_, ?_⟩
        · rw [hout]
          constructor
          · intro h
            simp at h
          · rintro ⟨r, hr, hrp, -⟩
            injection hr with hr
            subst hr
            rw [hst] at hrp
            exact Status.noConfusion hrp
        · intro r hr hcond
          rw [hout]
          exact ⟨rfl, ⟨Msg.paymentInProgress, rfl⟩⟩
      | pending =>
        have hnp : ¬ payment.status = Status.paid := by
          rw [hst]
          intro h
          exact Status.noConfusion h
        have hnpr : ¬ payment.status = Status.processing := by
          rw [hst]
          intro h
          exact Status.noConfusion h
        have hcalled : (checkout_page store (some payment_id) now suffix sess).sessionCalled
            = true := by
          unfold checkout_page
          rw [if_neg hfalsy]
          simp only [Option.getD_some, hget]
          rw [if_neg hexp, if_neg hnp, if_neg hnpr]
          cases sess <;> rfl
        refine ⟨?_, ?_⟩
        · rw [hcalled]
          constructor
          · intro _
            exact ⟨payment, rfl, hst, hexp⟩
          · intro _
            rfl
        · intro r hr hcond
          injection hr with hr
          subst hr
          rcases hcond with h | h | h
          · rw [hst] at h
            exact absurd h (fun hc => Status.noConfusion hc)
          · rw [hst] at h
            exact absurd h (fun hc => Status.noConfusion hc)
          · exact absurd h hexp

/-- A concrete paid link. -/
def paid_link : PaymentRecord :=
  ⟨"p1", 4999, "EUR", "R", Status.paid, "NL", 1000⟩

/-- A concrete pending link. -/
def pending_link : PaymentRecord :=
  ⟨"p2", 4999, "EUR", "Q", Status.pending, "NL", 1000⟩

/-- A concrete pending link whose reference contains an underscore. -/
def underscore_link : PaymentRecord :=
  ⟨"p3", 4999, "EUR", "A_B", Status.pending, "NL", 1000⟩

/-- A concrete processing link. -/
def processing_link : PaymentRecord :=
  ⟨"p4", 4999, "EUR", "S", Status.processing, "NL", 1000⟩

/-- C1 counterexample: paid is not terminal.  A webhook AUTHORISATION failure
notification whose recovered reference is the paid link's reference sets the
stored status back to pending, contradicting the claim that no subsequent
operation changes a paid link's status. -/
theorem C1_counterexample :
    paid_link.status = Status.paid ∧
    (webhook [paid_link] true none ""
        (some [⟨some "AUTHORISATION", false, "R_ab12cd34"⟩])).store =
      [⟨"p1", 4999, "EUR", "R", Status.pending, "NL", 1000⟩] ∧
    get_payment_by_id (webhook [paid_link] true none ""
        (some [⟨some "AUTHORISATION", false, "R_ab12cd34"⟩])).store "p1" =
      some ⟨"p1", 4999, "EUR", "R", Status.pending, "NL", 1000⟩ ∧
    Status.pending ≠ Status.paid := by
  decide

/-- C1 (amended): a paid link's status is preserved by checkout visits,
redirect returns, auto-unlock firings, mark-processing calls and webhook
AUTHORISATION success notifications; a webhook AUTHORISATION failure whose
recovered reference equals the link's reference, however, sets the status
back to pending. -/
theorem C1_paid_terminal_except_auth_failure (store : Store) (payment_id : String)
    (r : PaymentRecord) (hget : get_payment_by_id store payment_id = some r)
    (hpaid : r.status = Status.paid) :
    (∀ now suffix sess, (checkout_page store (some payment_id) now suffix sess).store = store) ∧
    (result_page store (some payment_id)).store = store ∧
    unlock_timer_fire store payment_id = store ∧
    (mark_processing store (some payment_id)).store = store ∧
    (∀ item : NotificationItem, item.eventCode = some "AUTHORISATION" → item.success = true →
      get_payment_by_id (process_notification store item) payment_id = some r) ∧
    (∀ item : NotificationItem, item.eventCode = some "AUTHORISATION" → item.success = false →
      recover_reference item.merchantReference = r.reference →
      get_payment_by_id (process_notification store item) payment_id =
        some { r with status := Status.pending }) := by
  have hne : r.status ≠ Status.pending := by
    rw [hpaid]
    intro h
    exact Status.noConfusion h
  have hnpr : r.status ≠ Status.processing := by
    rw [hpaid]
    intro h
    exact Status.noConfusion h
  refine ⟨?_, ?_, ?_, ?_, ?_, ?_⟩
  · intro now suffix sess
    exact checkout_page_store_eq store (some payment_id) now suffix sess
  · unfold result_page
    by_cases hf : py_falsy (some payment_id) = true
    · rw [if_pos hf]
    · rw [if_neg hf]
      simp only [Option.getD_some, hget]
      rw [if_neg hne]
  · unfold unlock_timer_fire
    rw [hget]
    simp [hnpr]
  · unfold mark_processing
    by_cases hf : py_falsy (some payment_id) = true
    · rw [if_pos hf]
    · rw [if_neg hf]
      simp only [Option.getD_some, hget]
      rw [if_neg hne]
  · intro item hev hsucc
    unfold process_notification
    rw [if_pos hev, if_pos hsucc]
    rw [get_after_update_by_reference, hget]
    show some (if r.reference == recover_reference item.merchantReference
        then { r with status := Status.paid } else r) = some r
    by_cases hrr : r.reference = recover_reference item.merchantReference
    · rw [if_pos (beq_iff_eq.mpr hrr), set_status_eq_self r Status.paid hpaid]
    · rw [if_neg (by simp [hrr])]
  · intro item hev hsucc hrec
    unfold process_notification
    rw [if_pos hev, if_neg (by simp [hsucc])]
    rw [get_after_update_by_reference, hget]
    simp [hrec]

/-- C2 counterexample: a checkout visit of a pending, unexpired link with a
successful session creation leaves the stored status pending (the claim says
it becomes processing) and arms no auto-unlock timer. -/
theorem C2_counterexample :
    pending_link.status = Status.pending ∧
    ¬ (0 : Int) > pending_link.expiresAt ∧
    (checkout_page [pending_link] (some "p2") 0 "ab12cd34"
        (SessionResult.success "sid" "sdata")).sessionCalled = true ∧
    get_payment_by_id (checkout_page [pending_link] (some "p2") 0 "ab12cd34"
        (SessionResult.success "sid" "sdata")).store "p2" = some pending_link ∧
    pending_link.status ≠ Status.processing ∧
    (checkout_page [pending_link] (some "p2") 0 "ab12cd34"
        (SessionResult.success "sid" "sdata")).timerArmed = false := by
  decide

/-- C2 (amended): a checkout visit of a pending, unexpired link makes the
session-creation call but never changes the stored record and never arms the
auto-unlock timer — on session-creation success as well as failure the status
stays pending; the processing lock is applied only at redirect return
(`/result`) and `/mark-processing`. -/
theorem C2_checkout_does_not_lock (store : Store) (payment_id : String) (now : Int)
    (suffix : String) (sess : SessionResult) (r : PaymentRecord) (hpid : payment_id ≠ "")
    (hget : get_payment_by_id store payment_id = some r)
    (hp : r.status = Status.pending) (hexp : ¬ now > r.expiresAt) :
    (checkout_page store (some payment_id) now suffix sess).sessionCalled = true ∧
    (checkout_page store (some payment_id) now suffix sess).store = store ∧
    get_payment_by_id (checkout_page store (some payment_id) now suffix sess).store payment_id
      = some r ∧
    (checkout_page store (some payment_id) now suffix sess).timerArmed = false := by
  have hstore := checkout_page_store_eq store (some payment_id) now suffix sess
  have htimer := checkout_page_timer_eq store (some payment_id) now suffix sess
  have hfalsy : ¬ py_falsy (some payment_id) = true := by
    simp [py_falsy, hpid]
  have hnp : ¬ r.status = Status.paid := by
    rw [hp]
    intro h
    exact Status.noConfusion h
  have hnpr : ¬ r.status = Status.processing := by
    rw [hp]
    intro h
    exact Status.noConfusion h
  have hcall : (checkout_page store (some payment_id) now suffix sess).sessionCalled = true := by
    unfold checkout_page
    rw [if_neg hfalsy]
    simp only [Option.getD_some, hget]
    rw [if_neg hexp, if_neg hnp, if_neg hnpr]
    cases sess <;> rfl
  exact ⟨hcall, hstore, by rw [hstore]; exact hget, htimer⟩

/-- C3 counterexample: for the merchant reference "A_B" — which contains an
underscore — the webhook recovery step applied to the derived session
reference returns "A", not "A_B", so a success notification for that attempt
updates no stored row: the link keyed by "A_B" stays pending. -/
theorem C3_counterexample :
    session_reference "A_B" "ab12cd34" = "A_B_ab12cd34" ∧
    recover_reference (session_reference "A_B" "ab12cd34") = "A" ∧
    ("A" : String) ≠ "A_B" ∧
    process_notification [underscore_link] ⟨some "AUTHORISATION", true, "A_B_ab12cd34"⟩ =
      [underscore_link] ∧
    underscore_link.status = Status.pending := by
  decide

/-- C3 (amended): for every merchant business reference `r` that contains no
underscore and every attempt suffix `s`, the webhook's recovery step applied
to the derived session reference `r ++ "_" ++ s` yields exactly `r`, so a
success notification for any attempt updates the stored row keyed by `r`. -/
theorem C3_reference_roundtrip (r s : String) (store : Store) (h : py_in '_' r = false) :
    recover_reference (session_reference r s) = r ∧
    (∀ item : NotificationItem, item.eventCode = some "AUTHORISATION" → item.success = true →
      item.merchantReference = session_reference r s →
      process_notification store item = update_status_by_reference store r Status.paid) := by
  have hrec := recover_session_reference r s h
  refine ⟨hrec, ?_⟩
  intro item hev hsucc href
  unfold process_notification
  rw [if_pos hev, if_pos hsucc, href, hrec]

/-! ### Witnesses: the claim theorems applied at concrete inputs -/

/-- Witness for C1 at the concrete paid link. -/
theorem C1_witness :
    (∀ now suffix sess,
      (checkout_page [paid_link] (some "p1") now suffix sess).store = [paid_link]) ∧
    (result_page [paid_link] (some "p1")).store = [paid_link] ∧
    unlock_timer_fire [paid_link] "p1" = [paid_link] ∧
    (mark_processing [paid_link] (some "p1")).store = [paid_link] ∧
    (∀ item : NotificationItem, item.eventCode = some "AUTHORISATION" → item.success = true →
      get_payment_by_id (process_notification [paid_link] item) "p1" = some paid_link) ∧
    (∀ item : NotificationItem, item.eventCode = some "AUTHORISATION" → item.success = false →
      recover_reference item.merchantReference = paid_link.reference →
      get_payment_by_id (process_notification [paid_link] item) "p1" =
        some { paid_link with status := Status.pending }) :=
  C1_paid_terminal_except_auth_failure [paid_link] "p1" paid_link (by decide) (by decide)

/-- Witness for C2 at the concrete pending link, with a failing session call. -/
theorem C2_witness :
    (checkout_page [pending_link] (some "p2") 0 "ab12cd34"
        (SessionResult.failure "boom")).sessionCalled = true ∧
    (checkout_page [pending_link] (some "p2") 0 "ab12cd34"
        (SessionResult.failure "boom")).store = [pending_link] ∧
    get_payment_by_id (checkout_page [pending_link] (some "p2") 0 "ab12cd34"
        (SessionResult.failure "boom")).store "p2" = some pending_link ∧
    (checkout_page [pending_link] (some "p2") 0 "ab12cd34"
        (SessionResult.failure "boom")).timerArmed = false :=
  C2_checkout_does_not_lock [pending_link] "p2" 0 "ab12cd34" (SessionResult.failure "boom")
    pending_link (by decide) (by decide) (by decide) (by decide)

/-- Witness for C3 at the underscore-free reference "R". -/
theorem C3_witness :
    recover_reference (session_reference "R" "ab12cd34") = "R" ∧
    (∀ item : NotificationItem, item.eventCode = some "AUTHORISATION" → item.success = true →
      item.merchantReference = session_reference "R" "ab12cd34" →
      process_notification [paid_link] item =
        update_status_by_reference [paid_link] "R" Status.paid) :=
  C3_reference_roundtrip "R" "ab12cd34" [paid_link] (by decide)

/-- Witness for C4: creating a second link with the reference "Q" already held
by the stored pending link. -/
theorem C4_witness :
    admin_form_post [pending_link] "p9" 4999 "EUR" "Q" "NL" 2000 "http://localhost:5000" =
      ⟨[pending_link], AdminResponse.duplicateReference, 400⟩ ∧
    (pending_link.status = Status.pending →
      pending_link ∈ (admin_form_post [pending_link] "p9" 4999 "EUR" "Q" "NL" 2000
        "http://localhost:5000").store ∧ pending_link.status = Status.pending) :=
  C4_duplicate_reference_rejected [pending_link] "p9" 4999 "EUR" "Q" "NL" 2000
    "http://localhost:5000" pending_link (by simp) (by decide)

/-- Witness for C5 at the concrete pending link. -/
theorem C5_witness :
    ((checkout_page [pending_link] (some "p2") 0 "ab12cd34"
        (SessionResult.success "sid" "sdata")).sessionCalled = true ↔
      (∃ r, get_payment_by_id [pending_link] "p2" = some r ∧ r.status = Status.pending ∧
        ¬ (0 : Int) > r.expiresAt)) ∧
    (∀ r, get_payment_by_id [pending_link] "p2" = some r →
      r.status = Status.processing ∨ r.status = Status.paid ∨ (0 : Int) > r.expiresAt →
      (checkout_page [pending_link] (some "p2") 0 "ab12cd34"
        (SessionResult.success "sid" "sdata")).sessionCalled = false ∧
      ∃ m, (checkout_page [pending_link] (some "p2") 0 "ab12cd34"
        (SessionResult.success "sid" "sdata")).view = CheckoutView.messagePage m) :=
  C5_checkout_session_gating [pending_link] "p2" 0 "ab12cd34"
    (SessionResult.success "sid" "sdata") (by decide)

/-- Witness for C6: the timer fires on the concrete processing link and
unlocks it back to pending. -/
theorem C6_witness :
    unlock_timer_fire [processing_link] "p4" =
      update_status_by_id [processing_link] "p4" Status.pending ∧
    get_payment_by_id (unlock_timer_fire [processing_link] "p4") "p4" =
      some { processing_link with status := Status.pending } :=
  (C6_auto_unlock_fire [processing_link] "p4").1 processing_link (by decide) (by decide)

/-- Witness for C7: redirect return on the concrete pending link locks it. -/
theorem C7_witness :
    result_page [pending_link] (some "p2") =
      ⟨update_status_by_id [pending_link] "p2" Status.processing, 200,
        Msg.confirmingPayment, true⟩ ∧
    get_payment_by_id (result_page [pending_link] (some "p2")).store "p2" =
      some { pending_link with status := Status.processing } :=
  (C7_result_page_lock_and_frame [pending_link] "p2" pending_link (by decide)
    (by decide)).1 (by decide)

/-- Witness for C8: a failing session call on the concrete pending link. -/
theorem C8_witness :
    checkout_page [pending_link] (some "p2") 0 "ab12cd34" (SessionResult.failure "boom") =
      ⟨[pending_link], 500, CheckoutView.messagePage Msg.errorCreatingSession, true,
        some (session_reference pending_link.reference "ab12cd34"), false⟩ ∧
    (∀ paymentId sess,
      (checkout_page [pending_link] paymentId 0 "ab12cd34" sess).store = [pending_link]) :=
  C8_checkout_failure_atomic [pending_link] "p2" 0 "ab12cd34" "boom" pending_link
    (by decide) (by decide) (by decide) (by decide)

/-- Witness for C9: a non-matching signature header is rejected with 401 and
the store is untouched (the payload would have set the link to paid). -/
theorem C9_witness :
    webhook [pending_link] false (some "bad")
      "AAAAAAAAAAAAAAAAAAAAAAAAAAAAAAAAAAAAAAAAAAA="
      (some [⟨some "AUTHORISATION", true, "Q_ab12cd34"⟩]) =
      ⟨[pending_link], 401, WebhookBody.invalidHmac⟩ :=
  C9_webhook_hmac_reject [pending_link] (some "bad")
    "AAAAAAAAAAAAAAAAAAAAAAAAAAAAAAAAAAAAAAAAAAA="
    (some [⟨some "AUTHORISATION", true, "Q_ab12cd34"⟩])
    (by decide) (Or.inr ⟨"bad", rfl, by decide⟩)

/-- Witness for C10: mark-processing on the concrete pending link locks it and
arms the timer. -/
theorem C10_witness :
    mark_processing [pending_link] (some "p2") =
      ⟨update_status_by_id [pending_link] "p2" Status.processing, 200,
        MarkBody.statusResp Status.processing, true⟩ ∧
    get_payment_by_id (mark_processing [pending_link] (some "p2")).store "p2" =
      some { pending_link with status := Status.processing } :=
  (C10_mark_processing_route [pending_link]).2.2.1 "p2" pending_link (by decide) (by decide)
    (by decide)

end PaymentLink
